import Mathlib

/-!
Verification of the live order-status subsystem of the sarawak-food-court
repository. The definitions below are a shallow embedding of the JavaScript
classes in `src/js/qr-code-manager.js` (ProgressTracker, NotificationManager,
OrderSubscription) and of the service-worker event listeners in the unnamed
service-worker source file (install/activate/push/fetch handlers).
-/

namespace SarawakFoodCourt

/-- JavaScript `Array.prototype.indexOf` on a list of strings: index of the
first occurrence, or `-1` when absent. Source: `this.steps.indexOf(...)`. -/
def jsIndexOf (l : List String) (x : String) : Int :=
  if x ∈ l then (l.indexOf x : Int) else -1

/-- Step list installed by the `ProgressTracker` constructor:
`this.steps = ['pending', 'preparing', 'ready', 'completed']`. -/
def standardSteps : List String := ["pending", "preparing", "ready", "completed"]

/-- State of the `ProgressTracker` class: the `steps` array and the
`currentStep` field. The DOM container is not part of the state machine. -/
structure ProgressTracker where
  steps : List String
  currentStep : String
deriving Repr, DecidableEq

/-- The `ProgressTracker` constructor: `this.steps = [...]`;
`this.currentStep = 'pending'`. -/
def mkProgressTracker : ProgressTracker :=
  { steps := standardSteps, currentStep := "pending" }

/-- `getProgressWidth()`:
`(this.steps.indexOf(this.currentStep) / (this.steps.length - 1)) * 100`. -/
def getProgressWidth (t : ProgressTracker) : ℚ :=
  ((jsIndexOf t.steps t.currentStep : ℚ) / ((t.steps.length : ℚ) - 1)) * 100

/-- A title/message pair from the fixed `messages` table inside
`updateStatus`. -/
structure StatusMessage where
  title : String
  message : String
deriving Repr, DecidableEq

/-- The fixed `messages` table of `updateStatus`: one entry per linear-scale
status, `undefined` (here `none`) for every other string. -/
def progressMessages (status : String) : Option StatusMessage :=
  if status = "pending" then
    some ⟨"Order Confirmed! 🎉", "Your order has been placed successfully"⟩
  else if status = "preparing" then
    some ⟨"Cooking Started! 👨‍🍳", "Your food is being prepared with love"⟩
  else if status = "ready" then
    some ⟨"Order Ready! ✅", "Your delicious food is ready for pickup!"⟩
  else if status = "completed" then
    some ⟨"Enjoy Your Meal! 🎉", "Thank you for your order. Bon appétit!"⟩
  else none

/-- Observable outcome of one `updateStatus` call: the new tracker state,
whether `render()` ran, and the notification passed to
`window.notificationManager.show` (if any). -/
structure UpdateOutcome where
  tracker : ProgressTracker
  rendered : Bool
  notif : Option StatusMessage
deriving Repr, DecidableEq

/-- `updateStatus(newStatus)`: early return when `newStatus` equals
`currentStep`; otherwise assign `currentStep`, call `render()`, and show the
notification from the `messages` table when one exists. No validation of
`newStatus` is performed by the source. -/
def updateStatus (t : ProgressTracker) (newStatus : String) : UpdateOutcome :=
  if t.currentStep = newStatus then ⟨t, false, none⟩
  else ⟨{ t with currentStep := newStatus }, true, progressMessages newStatus⟩

/-- Feeding a list of statuses one at a time; collects the notifications
emitted along the way. -/
def runUpdates (t : ProgressTracker) : List String → ProgressTracker × List StatusMessage
  | [] => (t, [])
  | s :: rest =>
    let r := updateStatus t s
    let p := runUpdates r.tracker rest
    (p.1, r.notif.toList ++ p.2)

/-- Value of `getProgressWidth` observed after each successive
`updateStatus` call of a fed sequence. -/
def widthTrace (t : ProgressTracker) : List String → List ℚ
  | [] => []
  | s :: rest =>
    let r := updateStatus t s
    getProgressWidth r.tracker :: widthTrace r.tracker rest

/-- A fed sequence is forward-moving when each status sits at least as far
along the step list as the current step at the moment it is applied. -/
def forwardFrom (t : ProgressTracker) : List String → Bool
  | [] => true
  | s :: rest =>
    decide (jsIndexOf t.steps t.currentStep ≤ jsIndexOf t.steps s) &&
      forwardFrom (updateStatus t s).tracker rest

lemma updateStatus_steps (t : ProgressTracker) (s : String) :
    (updateStatus t s).tracker.steps = t.steps := by
  unfold updateStatus
  split <;> rfl

lemma jsIndexOf_of_not_mem (l : List String) (x : String) (h : x ∉ l) :
    jsIndexOf l x = -1 := by
  simp [jsIndexOf, h]

lemma getProgressWidth_std (t : ProgressTracker) (hsteps : t.steps = standardSteps) :
    getProgressWidth t = (jsIndexOf standardSteps t.currentStep : ℚ) / 3 * 100 := by
  unfold getProgressWidth
  rw [hsteps]
  norm_num [standardSteps]

lemma width_val (s : String) :
    getProgressWidth ⟨standardSteps, s⟩ = (jsIndexOf standardSteps s : ℚ) / 3 * 100 :=
  getProgressWidth_std ⟨standardSteps, s⟩ rfl

lemma width_pending : getProgressWidth ⟨standardSteps, "pending"⟩ = 0 := by
  have h : jsIndexOf standardSteps "pending" = 0 := by decide
  rw [width_val, h]
  norm_num

lemma width_preparing : getProgressWidth ⟨standardSteps, "preparing"⟩ = 100 / 3 := by
  have h : jsIndexOf standardSteps "preparing" = 1 := by decide
  rw [width_val, h]
  norm_num

lemma width_ready : getProgressWidth ⟨standardSteps, "ready"⟩ = 200 / 3 := by
  have h : jsIndexOf standardSteps "ready" = 2 := by decide
  rw [width_val, h]
  norm_num

lemma width_completed : getProgressWidth ⟨standardSteps, "completed"⟩ = 100 := by
  have h : jsIndexOf standardSteps "completed" = 3 := by decide
  rw [width_val, h]
  norm_num

lemma width_not_mem (s : String) (h : s ∉ standardSteps) :
    getProgressWidth ⟨standardSteps, s⟩ = -100 / 3 := by
  rw [width_val, jsIndexOf_of_not_mem standardSteps s h]
  norm_num

lemma width_mono_step (t : ProgressTracker) (s : String)
    (hsteps : t.steps = standardSteps)
    (h : jsIndexOf t.steps t.currentStep ≤ jsIndexOf t.steps s) :
    getProgressWidth t ≤ getProgressWidth (updateStatus t s).tracker := by
  unfold updateStatus
  split
  · exact le_refl _
  · rw [getProgressWidth_std t hsteps, getProgressWidth_std ⟨t.steps, s⟩ hsteps]
    have hc : (jsIndexOf standardSteps t.currentStep : ℚ) ≤
        (jsIndexOf standardSteps s : ℚ) := by
      rw [hsteps] at h
      exact_mod_cast h
    linarith

/-- C1 (corrected statement): along any forward-moving sequence of status
updates, `getProgressWidth` is monotonically non-decreasing. -/
theorem c1_width_monotone_forward (t : ProgressTracker) (l : List String)
    (hsteps : t.steps = standardSteps) (h : forwardFrom t l = true) :
    List.Chain' (· ≤ ·) (getProgressWidth t :: widthTrace t l) := by
  induction l generalizing t with
  | nil => simp [widthTrace]
  | cons s rest ih =>
    rw [forwardFrom, Bool.and_eq_true, decide_eq_true_eq] at h
    rw [widthTrace, List.chain'_cons]
    refine ⟨width_mono_step t s hsteps h.1, ?_⟩
    exact ih (updateStatus t s).tracker
      (by rw [updateStatus_steps, hsteps]) h.2

/-- C1 witness: the canonical forward flow pending → preparing → ready →
completed yields a non-decreasing width sequence. -/
theorem c1_width_monotone_forward_witness :
    (mkProgressTracker.steps = standardSteps ∧
      forwardFrom mkProgressTracker ["preparing", "ready", "completed"] = true) ∧
    List.Chain' (· ≤ ·) (getProgressWidth mkProgressTracker ::
      widthTrace mkProgressTracker ["preparing", "ready", "completed"]) :=
  ⟨⟨rfl, by decide⟩,
    c1_width_monotone_forward mkProgressTracker ["preparing", "ready", "completed"]
      rfl (by decide)⟩

/-- C1 counterexample: `updateStatus` accepts backward transitions, so the
claimed monotonicity over all sequences fails: feeding completed then pending
keeps `currentStep` on the four linear statuses while the width drops from
100 to 0. -/
theorem c1_counterexample :
    (updateStatus mkProgressTracker "completed").tracker.currentStep ∈ standardSteps ∧
    (updateStatus (updateStatus mkProgressTracker "completed").tracker
        "pending").tracker.currentStep ∈ standardSteps ∧
    getProgressWidth (updateStatus (updateStatus mkProgressTracker "completed").tracker
        "pending").tracker <
      getProgressWidth (updateStatus mkProgressTracker "completed").tracker := by
  have e1 : (updateStatus mkProgressTracker "completed").tracker =
      ⟨standardSteps, "completed"⟩ := by decide
  have e2 : (updateStatus (updateStatus mkProgressTracker "completed").tracker
      "pending").tracker = ⟨standardSteps, "pending"⟩ := by decide
  refine ⟨by decide, by decide, ?_⟩
  rw [e2, e1, width_pending, width_completed]
  norm_num

/-- C3: `updateStatus` called with the current step is a no-op: the state is
unchanged, no render occurs and no notification is emitted. -/
theorem c3_duplicate_status_noop (t : ProgressTracker) :
    updateStatus t t.currentStep = ⟨t, false, none⟩ := by
  unfold updateStatus
  simp

/-- C4 counterexample: feeding pending, preparing, ready, completed into a
fresh tracker produces three notifications, not four: the tracker starts at
pending, so the first call is a no-op. -/
theorem c4_counterexample :
    (runUpdates mkProgressTracker
      ["pending", "preparing", "ready", "completed"]).2.length = 3 := by
  decide

/-- C4 (corrected statement): the canonical feed produces exactly three
notifications, titled Cooking Started, Order Ready and Enjoy Your Meal in
order, and the width sequence 0, 100/3, 200/3, 100. -/
theorem c4_status_flow :
    (runUpdates mkProgressTracker
        ["pending", "preparing", "ready", "completed"]).2 =
      [⟨"Cooking Started! 👨‍🍳", "Your food is being prepared with love"⟩,
       ⟨"Order Ready! ✅", "Your delicious food is ready for pickup!"⟩,
       ⟨"Enjoy Your Meal! 🎉", "Thank you for your order. Bon appétit!"⟩] ∧
    widthTrace mkProgressTracker ["pending", "preparing", "ready", "completed"] =
      [0, 100/3, 200/3, 100] := by
  have t0 : updateStatus mkProgressTracker "pending" =
      ⟨mkProgressTracker, false, none⟩ := by decide
  have t1 : updateStatus mkProgressTracker "preparing" =
      ⟨⟨standardSteps, "preparing"⟩, true,
        some ⟨"Cooking Started! 👨‍🍳", "Your food is being prepared with love"⟩⟩ := by
    decide
  have t2 : updateStatus (⟨standardSteps, "preparing"⟩ : ProgressTracker) "ready" =
      ⟨⟨standardSteps, "ready"⟩, true,
        some ⟨"Order Ready! ✅", "Your delicious food is ready for pickup!"⟩⟩ := by
    decide
  have t3 : updateStatus (⟨standardSteps, "ready"⟩ : ProgressTracker) "completed" =
      ⟨⟨standardSteps, "completed"⟩, true,
        some ⟨"Enjoy Your Meal! 🎉", "Thank you for your order. Bon appétit!"⟩⟩ := by
    decide
  have hmk : getProgressWidth mkProgressTracker = 0 := width_pending
  constructor
  · decide
  · simp only [widthTrace, t0, t1, t2, t3]
    rw [hmk, width_preparing, width_ready, width_completed]

/-- Status values named by the specification data model: the four linear
steps plus the terminal cancelled state. -/
def knownStatuses : List String := standardSteps ++ ["cancelled"]

lemma progressMessages_none (s : String)
    (h : s ∉ standardSteps) : progressMessages s = none := by
  simp only [standardSteps, List.mem_cons, List.mem_singleton, not_or] at h
  obtain ⟨h1, h2, h3, h4, -⟩ := h
  simp [progressMessages, h1, h2, h3, h4]

lemma updateStatus_not_mem (t : ProgressTracker) (s : String)
    (hmem : s ∉ standardSteps) (hne : t.currentStep ≠ s) :
    updateStatus t s =
      ⟨{ t with currentStep := s }, true, none⟩ := by
  unfold updateStatus
  rw [if_neg hne, progressMessages_none s hmem]

/-- C2 counterexample: an unrecognized status value is not rejected: it
mutates `currentStep`, triggers a render, and the rendered width becomes
-100/3 (not left unchanged at 0). -/
theorem c2_counterexample :
    (updateStatus mkProgressTracker "delivering").tracker.currentStep = "delivering" ∧
    (updateStatus mkProgressTracker "delivering").rendered = true ∧
    getProgressWidth (updateStatus mkProgressTracker "delivering").tracker = -100 / 3 := by
  have e1 : (updateStatus mkProgressTracker "delivering").tracker =
      ⟨standardSteps, "delivering"⟩ := by decide
  refine ⟨by decide, by decide, ?_⟩
  rw [e1, width_not_mem "delivering" (by decide)]

/-- C2 (corrected statement): for every status outside the five known values,
`updateStatus` performs no validation: it sets `currentStep` to the value,
re-renders, emits no notification, and `getProgressWidth` then returns
-100/3 because the value has index -1 in the step list. -/
theorem c2_invalid_status_mutates (t : ProgressTracker) (s : String)
    (hsteps : t.steps = standardSteps) (hmem : s ∉ knownStatuses)
    (hne : t.currentStep ≠ s) :
    (updateStatus t s).tracker.currentStep = s ∧
    (updateStatus t s).rendered = true ∧
    (updateStatus t s).notif = none ∧
    getProgressWidth (updateStatus t s).tracker = -100 / 3 := by
  have hstd : s ∉ standardSteps := fun hc =>
    hmem (by simp [knownStatuses, hc])
  rw [updateStatus_not_mem t s hstd hne]
  refine ⟨rfl, rfl, rfl, ?_⟩
  have htr : ({ t with currentStep := s } : ProgressTracker) =
      ⟨standardSteps, s⟩ := by rw [← hsteps]
  rw [htr, width_not_mem s hstd]

/-- C2 witness: the unknown status value delivering fed to a fresh tracker. -/
theorem c2_invalid_status_mutates_witness :
    (mkProgressTracker.steps = standardSteps ∧ "delivering" ∉ knownStatuses ∧
      mkProgressTracker.currentStep ≠ "delivering") ∧
    ((updateStatus mkProgressTracker "delivering").tracker.currentStep = "delivering" ∧
      (updateStatus mkProgressTracker "delivering").rendered = true ∧
      (updateStatus mkProgressTracker "delivering").notif = none ∧
      getProgressWidth (updateStatus mkProgressTracker "delivering").tracker = -100 / 3) :=
  ⟨⟨rfl, by decide, by decide⟩,
    c2_invalid_status_mutates mkProgressTracker "delivering" rfl (by decide) (by decide)⟩

/-- C10: feeding cancelled to a tracker not already cancelled sets
`currentStep` to cancelled, re-renders, emits no notification (the message
table has no cancelled entry), and `getProgressWidth` returns -100/3 since
cancelled has index -1 in the linear step list. -/
theorem c10_cancelled_negative_width (t : ProgressTracker)
    (hsteps : t.steps = standardSteps) (hne : t.currentStep ≠ "cancelled") :
    (updateStatus t "cancelled").tracker.currentStep = "cancelled" ∧
    (updateStatus t "cancelled").rendered = true ∧
    (updateStatus t "cancelled").notif = none ∧
    getProgressWidth (updateStatus t "cancelled").tracker = -100 / 3 := by
  have hstd : "cancelled" ∉ standardSteps := by decide
  rw [updateStatus_not_mem t "cancelled" hstd hne]
  refine ⟨rfl, rfl, rfl, ?_⟩
  have htr : ({ t with currentStep := "cancelled" } : ProgressTracker) =
      ⟨standardSteps, "cancelled"⟩ := by rw [← hsteps]
  rw [htr, width_not_mem "cancelled" hstd]

/-- C10 witness: cancelling a freshly constructed tracker. -/
theorem c10_cancelled_negative_width_witness :
    (mkProgressTracker.steps = standardSteps ∧
      mkProgressTracker.currentStep ≠ "cancelled") ∧
    ((updateStatus mkProgressTracker "cancelled").tracker.currentStep = "cancelled" ∧
      (updateStatus mkProgressTracker "cancelled").rendered = true ∧
      (updateStatus mkProgressTracker "cancelled").notif = none ∧
      getProgressWidth (updateStatus mkProgressTracker "cancelled").tracker = -100 / 3) :=
  ⟨⟨rfl, by decide⟩,
    c10_cancelled_negative_width mkProgressTracker rfl (by decide)⟩

/-- State of the `NotificationManager` class relevant to queue management:
the `notificationQueue` array (elements identified by a numeric id, standing
for the DOM node) and the `maxNotifications` bound. -/
structure NotificationManager where
  notificationQueue : List Nat
  maxNotifications : Nat
deriving Repr, DecidableEq

/-- The `NotificationManager` constructor: empty queue,
`this.maxNotifications = 3`. -/
def mkNotificationManager : NotificationManager :=
  { notificationQueue := [], maxNotifications := 3 }

/-- Queue effect of `show(options)`: push the new notification, then if the
queue length exceeds `maxNotifications`, shift off the oldest entry and
dismiss it immediately. Returns the new state and the evicted entry. -/
def NotificationManager.show (m : NotificationManager) (n : Nat) :
    NotificationManager × Option Nat :=
  let q := m.notificationQueue ++ [n]
  if m.maxNotifications < q.length then
    match q with
    | [] => ({ m with notificationQueue := [] }, none)
    | old :: rest => ({ m with notificationQueue := rest }, some old)
  else ({ m with notificationQueue := q }, none)

/-- Queue effect of `dismiss(notification)`: `indexOf` followed by a single
`splice` when found, i.e. removal of the first occurrence (a no-op when the
element is no longer queued, so a second dismissal is safe). -/
def NotificationManager.dismiss (m : NotificationManager) (n : Nat) :
    NotificationManager :=
  { m with notificationQueue := m.notificationQueue.erase n }

/-- An operation on the notification manager: a `show` call or a `dismiss`
(close button or auto-dismiss timer firing). -/
inductive NotifOp where
  | push (n : Nat)
  | close (n : Nat)
deriving Repr, DecidableEq

/-- Applies one operation to the manager state. -/
def applyNotifOp (m : NotificationManager) : NotifOp → NotificationManager
  | .push n => (m.show n).1
  | .close n => m.dismiss n

/-- Runs a sequence of operations from a given manager state. -/
def runNotifOps (m : NotificationManager) (ops : List NotifOp) : NotificationManager :=
  ops.foldl applyNotifOp m

lemma show_fst_length (m : NotificationManager) (n : Nat)
    (hmax : m.maxNotifications = 3) (hlen : m.notificationQueue.length ≤ 3) :
    (m.show n).1.notificationQueue.length ≤ 3 := by
  unfold NotificationManager.show
  rcases Nat.lt_or_ge m.notificationQueue.length 3 with hlt | hge
  · rw [if_neg (by simp [hmax]; omega)]
    simp
    omega
  · have h3 : m.notificationQueue.length = 3 := le_antisymm hlen hge
    rw [if_pos (by simp [hmax, h3])]
    rcases hq : m.notificationQueue ++ [n] with _ | ⟨a, rest⟩
    · simp
    · have : (m.notificationQueue ++ [n]).length = 4 := by simp [h3]
      rw [hq] at this
      simp at this ⊢
      omega

lemma show_preserves_max (m : NotificationManager) (n : Nat) :
    (m.show n).1.maxNotifications = m.maxNotifications := by
  unfold NotificationManager.show
  dsimp only
  split
  · split <;> rfl
  · rfl

lemma applyNotifOp_inv (m : NotificationManager) (op : NotifOp)
    (hmax : m.maxNotifications = 3) (hlen : m.notificationQueue.length ≤ 3) :
    (applyNotifOp m op).maxNotifications = 3 ∧
      (applyNotifOp m op).notificationQueue.length ≤ 3 := by
  cases op with
  | push n =>
    exact ⟨by rw [applyNotifOp, show_preserves_max, hmax],
      show_fst_length m n hmax hlen⟩
  | close n =>
    refine ⟨hmax, ?_⟩
    calc (m.notificationQueue.erase n).length ≤ m.notificationQueue.length :=
          List.length_erase_le _ _
      _ ≤ 3 := hlen

lemma runNotifOps_inv (ops : List NotifOp) (m : NotificationManager)
    (hmax : m.maxNotifications = 3) (hlen : m.notificationQueue.length ≤ 3) :
    (runNotifOps m ops).maxNotifications = 3 ∧
      (runNotifOps m ops).notificationQueue.length ≤ 3 := by
  induction ops generalizing m with
  | nil => exact ⟨hmax, hlen⟩
  | cons op rest ih =>
    have h := applyNotifOp_inv m op hmax hlen
    exact ih (applyNotifOp m op) h.1 h.2

lemma show_evicts_head (m : NotificationManager)
    (hmax : m.maxNotifications = 3) (h3 : m.notificationQueue.length = 3) (n : Nat) :
    (m.show n).2 = m.notificationQueue.head? ∧
      (m.show n).1.notificationQueue = m.notificationQueue.tail ++ [n] := by
  rcases hq : m.notificationQueue with _ | ⟨a, rest⟩
  · rw [hq] at h3
    simp at h3
  · unfold NotificationManager.show
    rw [hq, if_pos (by simp [hmax]; rw [hq] at h3; simp at h3; omega)]
    simp

/-- C5: starting from the freshly constructed manager, after any sequence of
`show` and `dismiss` operations the visible queue never holds more than
`maxNotifications = 3` items, and a `show` issued when the queue already
holds 3 items evicts exactly the oldest (first) of them, leaving the other
two plus the new item. -/
theorem c5_queue_bounded_fifo (ops : List NotifOp) (n : Nat) :
    (runNotifOps mkNotificationManager ops).notificationQueue.length ≤ 3 ∧
    ((runNotifOps mkNotificationManager ops).notificationQueue.length = 3 →
      ((runNotifOps mkNotificationManager ops).show n).2 =
        (runNotifOps mkNotificationManager ops).notificationQueue.head? ∧
      ((runNotifOps mkNotificationManager ops).show n).1.notificationQueue =
        (runNotifOps mkNotificationManager ops).notificationQueue.tail ++ [n]) := by
  have hinv := runNotifOps_inv ops mkNotificationManager rfl (by simp [mkNotificationManager])
  exact ⟨hinv.2, fun h3 => show_evicts_head _ hinv.1 h3 n⟩

/-- C5 witness: after three shows the queue is full; a fourth show evicts
the first-shown notification and keeps the bound. -/
theorem c5_queue_bounded_fifo_witness :
    ((runNotifOps mkNotificationManager
        [NotifOp.push 10, NotifOp.push 11, NotifOp.push 12]).notificationQueue.length ≤ 3 ∧
      ((runNotifOps mkNotificationManager
          [NotifOp.push 10, NotifOp.push 11, NotifOp.push 12]).show 13).2 =
        (runNotifOps mkNotificationManager
          [NotifOp.push 10, NotifOp.push 11, NotifOp.push 12]).notificationQueue.head? ∧
      ((runNotifOps mkNotificationManager
          [NotifOp.push 10, NotifOp.push 11, NotifOp.push 12]).show 13).1.notificationQueue =
        (runNotifOps mkNotificationManager
          [NotifOp.push 10, NotifOp.push 11, NotifOp.push 12]).notificationQueue.tail ++ [13]) :=
  ⟨(c5_queue_bounded_fifo [NotifOp.push 10, NotifOp.push 11, NotifOp.push 12] 13).1,
    ((c5_queue_bounded_fifo [NotifOp.push 10, NotifOp.push 11, NotifOp.push 12] 13).2
      (by decide)).1,
    ((c5_queue_bounded_fifo [NotifOp.push 10, NotifOp.push 11, NotifOp.push 12] 13).2
      (by decide)).2⟩

/-- Fields of the `OrderSubscription` class: the order id and the
`this.subscription` field, which holds (only) the orders channel returned by
the first `channel(...)...subscribe(...)` chain; the order-items channel
created by the second chain is never stored. -/
structure OrderSubscription where
  orderId : String
  subscription : Option String
deriving Repr, DecidableEq

/-- The `OrderSubscription` constructor: `this.subscription = null`. -/
def mkOrderSubscription (orderId : String) : OrderSubscription :=
  { orderId := orderId, subscription := none }

/-- Combined state of a subscription object and the channels currently open
on the shared supabase client (identified by their topic strings). -/
structure SubscriptionState where
  sub : OrderSubscription
  openChannels : List String
deriving Repr, DecidableEq

/-- `subscribe(callback)`: opens the channel `order-` + orderId (stored in
`this.subscription`) and the channel `order-items-` + orderId (not stored
anywhere). -/
def subscribeOrder (s : SubscriptionState) : SubscriptionState :=
  let ordersChannel := "order-" ++ s.sub.orderId
  let itemsChannel := "order-items-" ++ s.sub.orderId
  { sub := { s.sub with subscription := some ordersChannel },
    openChannels := s.openChannels ++ [ordersChannel, itemsChannel] }

/-- `unsubscribe()`: when `this.subscription` is set, calls
`supabase.removeChannel(this.subscription)`; otherwise does nothing. -/
def unsubscribeOrder (s : SubscriptionState) : SubscriptionState :=
  match s.sub.subscription with
  | some ch => { s with openChannels := s.openChannels.filter (fun c => c ≠ ch) }
  | none => s

lemma order_channel_ne_items_channel (orderId : String) :
    ("order-items-" ++ orderId) ≠ ("order-" ++ orderId) := by
  intro h
  have hlen := congrArg String.length h
  simp only [String.length_append] at hlen
  have h6 : "order-".length = 6 := by decide
  have h12 : "order-items-".length = 12 := by decide
  rw [h12, h6] at hlen
  omega

/-- C6 counterexample: after `subscribe` then `unsubscribe` with no other
channels open, the order-items channel is still open — `unsubscribe` does
not release both channels as claimed. -/
theorem c6_counterexample :
    (unsubscribeOrder (subscribeOrder
        ⟨mkOrderSubscription "ORD42", []⟩)).openChannels = ["order-items-ORD42"] := by
  decide

/-- C6 (corrected statement): `unsubscribe` releases the orders channel but
leaks the order-items channel, which remains open; the call is idempotent,
and calling it before `subscribe` (while `this.subscription` is still null)
is a safe no-op. -/
theorem c6_unsubscribe_partial_release (orderId : String) (chans : List String) :
    ("order-items-" ++ orderId) ∈
      (unsubscribeOrder (subscribeOrder
        ⟨mkOrderSubscription orderId, []⟩)).openChannels ∧
    ("order-" ++ orderId) ∉
      (unsubscribeOrder (subscribeOrder
        ⟨mkOrderSubscription orderId, []⟩)).openChannels ∧
    (∀ s : SubscriptionState,
      unsubscribeOrder (unsubscribeOrder s) = unsubscribeOrder s) ∧
    unsubscribeOrder ⟨mkOrderSubscription orderId, chans⟩ =
      ⟨mkOrderSubscription orderId, chans⟩ := by
  refine ⟨?_, ?_, ?_, rfl⟩
  · simp [unsubscribeOrder, subscribeOrder, mkOrderSubscription, List.mem_filter,
      order_channel_ne_items_channel orderId]
  · simp [unsubscribeOrder, subscribeOrder, mkOrderSubscription, List.mem_filter]
  · intro s
    unfold unsubscribeOrder
    rcases hsub : s.sub.subscription with - | ch
    · rw [hsub]
    · rw [hsub]
      simp only [hsub]
      rw [List.filter_filter]
      simp

/-- Resolved notification options passed to
`self.registration.showNotification` by the push listener. -/
structure NotificationData where
  title : String
  body : String
  icon : String
  badge : String
  vibrate : List Nat
  tag : String
  requireInteraction : Bool
  data : Option String
deriving Repr, DecidableEq

/-- Default `notificationData` object built at the top of the push
listener. -/
def defaultNotificationData : NotificationData :=
  { title := "Sarawak Food Court"
  , body := "Your order status has been updated"
  , icon := "/assets/logo.png"
  , badge := "/assets/logo.png"
  , vibrate := [200, 100, 200]
  , tag := "order-update"
  , requireInteraction := false
  , data := none }

/-- A structured push payload as produced by `event.data.json()`: any subset
of the fields may be present. -/
structure PushPayload where
  title : Option String
  body : Option String
  icon : Option String
  badge : Option String
  vibrate : Option (List Nat)
  tag : Option String
  requireInteraction : Option Bool
  data : Option String
deriving Repr, DecidableEq

/-- Result of reading `event.data`: either `event.data.json()` succeeds with
a structured payload, or it throws and `event.data.text()` yields the raw
payload text. -/
inductive PushEventData where
  | json (p : PushPayload)
  | text (raw : String)
deriving Repr, DecidableEq

/-- The object spread `{ ...notificationData, ...data }`: fields present in
the parsed payload override the defaults. -/
def mergePayload (base : NotificationData) (p : PushPayload) : NotificationData :=
  { title := p.title.getD base.title
  , body := p.body.getD base.body
  , icon := p.icon.getD base.icon
  , badge := p.badge.getD base.badge
  , vibrate := p.vibrate.getD base.vibrate
  , tag := p.tag.getD base.tag
  , requireInteraction := p.requireInteraction.getD base.requireInteraction
  , data := p.data <|> base.data }

/-- The push event listener: start from the defaults; when `event.data` is
present, try `event.data.json()` and spread it over the defaults; when the
parse throws, set only `notificationData.body = event.data.text()`. The
resolved record is what `showNotification` displays. -/
def onPush (eventData : Option PushEventData) : NotificationData :=
  match eventData with
  | none => defaultNotificationData
  | some (.json p) => mergePayload defaultNotificationData p
  | some (.text raw) => { defaultNotificationData with body := raw }

/-- C7: a push payload that fails to parse as JSON is downgraded, not
dropped: the displayed notification carries the raw payload text as its body
and the default values for every other field. -/
theorem c7_push_parse_fallback (raw : String) :
    onPush (some (.text raw)) = { defaultNotificationData with body := raw } ∧
    (onPush (some (.text raw))).title = "Sarawak Food Court" ∧
    (onPush (some (.text raw))).body = raw ∧
    (onPush (some (.text raw))).icon = "/assets/logo.png" :=
  ⟨rfl, rfl, rfl, rfl⟩

/-- Name of the single cache generation used by the service worker:
`const CACHE_NAME = 'sarawak-food-court-v1'`. -/
def CACHE_NAME : String := "sarawak-food-court-v1"

/-- The activate event listener: enumerate `caches.keys()` and delete every
cache whose name differs from `CACHE_NAME`; the surviving set is exactly the
caches named `CACHE_NAME`. -/
def activateWorker (cacheNames : Finset String) : Finset String :=
  cacheNames.filter (fun n => n = CACHE_NAME)

/-- C8: when the current generation has been installed, activation leaves
exactly the one live generation, and activating again with an unchanged
manifest leaves exactly one generation both times (idempotence). -/
theorem c8_activation_idempotent (caches : Finset String)
    (h : CACHE_NAME ∈ caches) :
    activateWorker caches = {CACHE_NAME} ∧
    (activateWorker caches).card = 1 ∧
    activateWorker (activateWorker caches) = activateWorker caches ∧
    (activateWorker (activateWorker caches)).card = 1 := by
  have h1 : activateWorker caches = {CACHE_NAME} := by
    rw [activateWorker, Finset.filter_eq', if_pos h]
  refine ⟨h1, by rw [h1]; rfl, ?_, ?_⟩
  · rw [h1, activateWorker, Finset.filter_eq', if_pos (Finset.mem_singleton_self _)]
  · rw [h1, activateWorker, Finset.filter_eq', if_pos (Finset.mem_singleton_self _)]
    rfl

/-- C8 witness: a cache store holding the live generation and a stale one. -/
theorem c8_activation_idempotent_witness :
    (CACHE_NAME ∈ ({CACHE_NAME, "sarawak-food-court-v0"} : Finset String)) ∧
    (activateWorker {CACHE_NAME, "sarawak-food-court-v0"} = {CACHE_NAME} ∧
      (activateWorker {CACHE_NAME, "sarawak-food-court-v0"}).card = 1 ∧
      activateWorker (activateWorker {CACHE_NAME, "sarawak-food-court-v0"}) =
        activateWorker {CACHE_NAME, "sarawak-food-court-v0"} ∧
      (activateWorker (activateWorker {CACHE_NAME, "sarawak-food-court-v0"})).card = 1) :=
  ⟨Finset.mem_insert_self _ _,
    c8_activation_idempotent {CACHE_NAME, "sarawak-food-court-v0"}
      (Finset.mem_insert_self _ _)⟩

/-- An intercepted request: method and URL (the request identity used by the
cache, per the data model). -/
structure HttpRequest where
  method : String
  url : String
deriving Repr, DecidableEq

/-- An opaque response snapshot. -/
structure HttpResponse where
  content : String
deriving Repr, DecidableEq

/-- A cache generation: stored request/response pairs. -/
abbrev CacheStore := List (HttpRequest × HttpResponse)

/-- Model of `Cache.match` from the Web Cache API (an external platform
interface, not repository code): per the standard, only GET requests can
match; for a GET request the first stored entry with the same identity is
returned. -/
def cacheMatch (c : CacheStore) (req : HttpRequest) : Option HttpResponse :=
  if req.method = "GET" then
    (c.find? (fun e => decide (e.1 = req))).map (fun e => e.2)
  else none

/-- Model of `Cache.put` from the Web Cache API (external platform
interface): per the standard, `put` with a non-GET request rejects with a
`TypeError` and stores nothing — the source ignores the returned promise, so
the rejection is dropped; a GET request replaces any entry with the same
identity. -/
def cachePut (c : CacheStore) (req : HttpRequest) (resp : HttpResponse) : CacheStore :=
  if req.method = "GET" then
    (req, resp) :: c.filter (fun e => decide (e.1 ≠ req))
  else c

/-- The fetch event listener: respond with `caches.match(event.request)`;
on a miss, fetch from the network, `cache.put` a clone of the response into
the current generation, and return the network response; when the network
fetch fails, fall back to `caches.match('/offline.html')`. Returns the
cache after the intercept and the response delivered to the page. -/
def handleFetch (c : CacheStore) (network : HttpRequest → Option HttpResponse)
    (req : HttpRequest) : CacheStore × Option HttpResponse :=
  match cacheMatch c req with
  | some r => (c, some r)
  | none =>
    match network req with
    | some resp => (cachePut c req resp, some resp)
    | none => (c, cacheMatch c ⟨"GET", "/offline.html"⟩)

/-- C9: the fetch-intercept path never stores a request with a
side-effecting method: starting from a cache holding only GET entries, the
cache after any intercept still holds only GET entries, and an intercept of
a non-GET request leaves the cache entirely unchanged. -/
theorem c9_only_get_cached (c : CacheStore)
    (network : HttpRequest → Option HttpResponse) (req : HttpRequest)
    (h : ∀ e ∈ c, e.1.method = "GET") :
    (∀ e ∈ (handleFetch c network req).1, e.1.method = "GET") ∧
    (req.method ≠ "GET" → (handleFetch c network req).1 = c) := by
  constructor
  · intro e he
    unfold handleFetch at he
    rcases hm : cacheMatch c req with - | r
    · rw [hm] at he
      rcases hn : network req with - | resp
      · rw [hn] at he
        exact h e he
      · rw [hn] at he
        simp only at he
        unfold cachePut at he
        by_cases hget : req.method = "GET"
        · rw [if_pos hget] at he
          rcases List.mem_cons.mp he with hh | ht
          · rw [hh]
            exact hget
          · exact h e (List.mem_of_mem_filter ht)
        · rw [if_neg hget] at he
          exact h e he
    · rw [hm] at he
      exact h e he
  · intro hne
    unfold handleFetch
    have hm : cacheMatch c req = none := by
      unfold cacheMatch
      rw [if_neg hne]
    rw [hm]
    rcases hn : network req with - | resp
    · rfl
    · simp only
      unfold cachePut
      rw [if_neg hne]

/-- C9 witness: a POST request on an empty cache with the network
available: nothing is stored. -/
theorem c9_only_get_cached_witness :
    (∀ e ∈ ([] : CacheStore), e.1.method = "GET") ∧
    ((∀ e ∈ (handleFetch [] (fun _ => some ⟨"created"⟩)
        ⟨"POST", "/api/orders"⟩).1, e.1.method = "GET") ∧
      ((⟨"POST", "/api/orders"⟩ : HttpRequest).method ≠ "GET" →
        (handleFetch [] (fun _ => some ⟨"created"⟩)
          ⟨"POST", "/api/orders"⟩).1 = [])) :=
  ⟨fun e he => absurd he (List.not_mem_nil e),
    c9_only_get_cached [] (fun _ => some ⟨"created"⟩) ⟨"POST", "/api/orders"⟩
      (fun e he => absurd he (List.not_mem_nil e))⟩

end SarawakFoodCourt
